import Mathlib

/-!
Shallow embedding of `src/charon/backends/virtualbox.py` (class `VirtualBoxState`
and `VirtualBoxDefinition`), together with proofs about the provisioning state
machine (`create`), the lifecycle operations (`destroy`, `start`) and the
persistence layer (`serialise` / `deserialise`).

External effects (VBoxManage subprocess calls, `write()` persistence,
`charon.known_hosts.remove`, key-pair generation, nix-build image resolution)
are modelled by an explicit environment `Env` supplying the outcome of each
external call, and every operation returns, besides its `Except` result, the
list of external events it issued, in order.  Unbounded polling loops
(`_wait_for_ip`, the power-off wait in `destroy`) take a fuel parameter and
report `Err.fuel` when it runs out.
-/

namespace VBox

/-- Python truthiness of an optional-string field: `None` and `""` are falsy.
The source guards steps with `if not self._field:`. -/
def truthy : Option String → Bool
  | none => false
  | some s => s ≠ ""

/-- `VirtualBoxDefinition`: the three attributes read from the XML in
`VirtualBoxDefinition.__init__` (`baseImage`, `memorySize`, `headless`).
`memorySize` is kept as a string, as in the source (`.get("value")`). -/
structure Defn where
  base_image : String
  memory_size : String
  headless : Bool
deriving DecidableEq, Repr

/-- The mutable fields of `VirtualBoxState` set in `__init__`
(`_vm_id`, `_ipv4`, `_disk`, `_disk_attached`, `_started`,
`_client_private_key`, `_client_public_key`). -/
structure State where
  vm_id : Option String
  ipv4 : Option String
  disk : Option String
  disk_attached : Bool
  started : Bool
  client_private_key : Option String
  client_public_key : Option String
deriving DecidableEq, Repr

/-- The freshly-initialised state: everything unset (`__init__`). -/
def initState : State :=
  { vm_id := none, ipv4 := none, disk := none, disk_attached := false,
    started := false, client_private_key := none, client_public_key := none }

/-- Values of the persisted nested mapping (JSON-like). -/
inductive Value where
  | str : String → Value
  | bool : Bool → Value
  | obj : List (String × Value) → Value

/-- Mapping lookup, i.e. Python `dict` access by key. -/
def lookupV : List (String × Value) → String → Option Value
  | [], _ => none
  | (k, v) :: rest, key => if k = key then some v else lookupV rest key

/-- Python `x.get(key, None)` for a string-valued key. -/
def getStr (m : List (String × Value)) (k : String) : Option String :=
  match lookupV m k with
  | some (Value.str s) => some s
  | _ => none

/-- Python `x.get(key, False)` for a bool-valued key. -/
def getBool (m : List (String × Value)) (k : String) : Bool :=
  match lookupV m k with
  | some (Value.bool b) => b
  | _ => false

/-- `VirtualBoxState.serialise` (lines 49-62): top-level `vmId` and
`privateIpv4` are added only when truthy; the nested `virtualbox` mapping
carries `disk` and the two keys only when truthy, and always carries
`diskAttached` and `started`.  The base-class `MachineState.serialise`
contribution (not under `src/`) is modelled as the empty mapping. -/
def serialise (s : State) : List (String × Value) :=
  (if truthy s.vm_id then [("vmId", Value.str (s.vm_id.getD ""))] else [])
  ++ (if truthy s.ipv4 then [("privateIpv4", Value.str (s.ipv4.getD ""))] else [])
  ++ [("virtualbox", Value.obj (
       (if truthy s.disk then [("disk", Value.str (s.disk.getD ""))] else [])
       ++ (if truthy s.client_private_key then
             [("clientPrivateKey", Value.str (s.client_private_key.getD ""))] else [])
       ++ (if truthy s.client_public_key then
             [("clientPublicKey", Value.str (s.client_public_key.getD ""))] else [])
       ++ [("diskAttached", Value.bool s.disk_attached),
           ("started", Value.bool s.started)]))]

/-- `VirtualBoxState.deserialise` (lines 64-74).  Every VirtualBox field is
assigned from the mapping with `get` defaults; `y = x.get('virtualbox')`
followed by attribute access on `y` fails when the key is absent, hence the
`Option` result. -/
def deserialise (x : List (String × Value)) : Option State :=
  match lookupV x "virtualbox" with
  | some (Value.obj y) =>
    some { vm_id := getStr x "vmId",
           ipv4 := getStr x "privateIpv4",
           disk := getStr y "disk",
           disk_attached := getBool y "diskAttached",
           client_private_key := getStr y "clientPrivateKey",
           client_public_key := getStr y "clientPublicKey",
           started := getBool y "started" }
  | _ => none

/-- Lookup inside the nested `virtualbox` mapping of a serialised state. -/
def vbLookup (m : List (String × Value)) (k : String) : Option Value :=
  match lookupV m "virtualbox" with
  | some (Value.obj y) => lookupV y k
  | _ => none

/-! ## Backend effects

Every external call of `VirtualBoxState` is recorded as an `Event`; the
environment `Env` determines each call's outcome.  Exit codes of
`subprocess.call` are kept as naturals and compared against 0 as the source
does. -/

/-- One VBoxManage invocation (or nix-build), with the arguments that the
claims discriminate on. -/
inductive Cmd where
  | createvm (vmId : String)
  | clonehd (src dst : String)
  | storagectl (vmId : String)
  | storageattach (vmId disk : String)
  | guestpropSet (vmId key value : String)
  | guestpropGet (vmId key : String)
  | modifyvm (vmId memory : String)
  | startvm (vmId : String) (headless : Bool)
  | controlvmPoweroff (vmId : String)
  | unregistervm (vmId : String)
  | nixBuild
deriving DecidableEq, Repr

/-- An observable external event issued by an operation, in program order:
a backend command, a `_get_vm_state` query (with its parsed result, `none`
when the query raised), a `charon.known_hosts.remove`, key-pair generation,
a `self.write()` persistence call carrying the state it commits,
a `time.sleep(1)`, or a `self.warn` message. -/
inductive Event where
  | cmd (c : Cmd)
  | queryState (result : Option String)
  | knownHostsRemove (addr : String)
  | genKeyPair
  | write (s : State)
  | sleep
  | warn (msg : String)
deriving DecidableEq, Repr

/-- Errors: `BackendCommandError`-like exceptions from failed mutating calls,
`BackendQueryError`-like exceptions from queries, and fuel exhaustion of a
modelled unbounded polling loop. -/
inductive Err where
  | backendCommand (msg : String)
  | backendQuery (msg : String)
  | fuel
deriving DecidableEq, Repr

/-- Outcomes of the external world.  One-shot commands have a fixed exit code;
`vmState` and `guestGet` give the result of the n-th `_get_vm_state` query
resp. the n-th `guestproperty get` output (`none` models a raised
query/`CalledProcessError`).  `keypair` is the credential collaborator,
`nixBuild` the image resolver, `homeDir`/`vmDirExists` the filesystem. -/
structure Env where
  createvm_res : Nat
  clonehd_res : Nat
  storagectl_res : Nat
  storageattach_res : Nat
  modifyvm_res : Nat
  startvm_res : Nat
  guestSetIp_res : Nat
  guestSetKey_res : Nat
  unregister_res : Nat
  vmState : Nat → Option String
  guestGet : Nat → Option String
  homeDir : String
  vmDirExists : Bool
  nixBuild : Option String
  keypair : String × String

/-- Result of an operation: the `Except` outcome together with the full trace
of events issued before it returned or raised. -/
abbrev Res := Except Err State × List Event

/-- Sequencing: an error short-circuits, traces accumulate in order. -/
def andThen (r : Res) (f : State → Res) : Res :=
  match r with
  | (Except.error e, tr) => (Except.error e, tr)
  | (Except.ok s, tr) => ((f s).1, tr ++ (f s).2)

/-- The guest-property key holding the address
(`/VirtualBox/GuestInfo/Net/1/V4/IP`). -/
def ipKey : String := "/VirtualBox/GuestInfo/Net/1/V4/IP"

/-- The guest-property key for the client public key
(`/VirtualBox/GuestInfo/Charon/ClientPublicKey`). -/
def pubKeyKey : String := "/VirtualBox/GuestInfo/Charon/ClientPublicKey"

/-- Python slice `s[0:n]`. -/
def strTake (s : String) (n : Nat) : String := String.mk (s.toList.take n)

/-- Python slice `s[n:]`. -/
def strDrop (s : String) (n : Nat) : String := String.mk (s.toList.drop n)

/-! ## The operations (lines 133-291 of the source) -/

/-- `VirtualBoxState._start` (lines 133-146): clear the IP guest property,
publish the client public key, `startvm` (with `--type headless` when asked),
then set `_started = True` and `write()`.  Each failed call raises. -/
def _start (env : Env) (headless : Bool) (s : State) : Res :=
  let vmId := s.vm_id.getD ""
  let e1 := Event.cmd (Cmd.guestpropSet vmId ipKey "")
  if env.guestSetIp_res ≠ 0 then
    (Except.error (Err.backendCommand "unable to clear IP address"), [e1])
  else
    let e2 := Event.cmd (Cmd.guestpropSet vmId pubKeyKey (s.client_public_key.getD ""))
    if env.guestSetKey_res ≠ 0 then
      (Except.error (Err.backendCommand "unable to set client key"), [e1, e2])
    else
      let e3 := Event.cmd (Cmd.startvm vmId headless)
      if env.startvm_res ≠ 0 then
        (Except.error (Err.backendCommand "unable to start VM"), [e1, e2, e3])
      else
        let s' := { s with started := true }
        (Except.ok s', [e1, e2, e3, Event.write s'])

/-- `VirtualBoxState._wait_for_ip` (lines 149-166): poll the IP guest
property; a `CalledProcessError` raises; an output whose first 7 characters
are `"Value: "` yields the address (the rest of the line) and breaks out,
otherwise sleep and retry.  After the loop: `self._ipv4` was already updated,
then `charon.known_hosts.remove(self._ipv4)` and `write()`.  `i` is the index
of the next `guestproperty get` in `env.guestGet`; `fuel` bounds the loop. -/
def _wait_for_ip (env : Env) (s : State) (fuel i : Nat) : Res :=
  match fuel with
  | 0 => (Except.error Err.fuel, [])
  | fuel + 1 =>
    let eg := Event.cmd (Cmd.guestpropGet (s.vm_id.getD "") ipKey)
    match env.guestGet i with
    | none => (Except.error (Err.backendCommand "unable to get IP address"), [eg])
    | some res =>
      if strTake res 7 = "Value: " then
        let ip := strDrop res 7
        let s' := { s with ipv4 := some ip }
        (Except.ok s', [eg, Event.knownHostsRemove ip, Event.write s'])
      else
        let p := _wait_for_ip env s fuel (i + 1)
        (p.1, eg :: Event.sleep :: p.2)

/-- Step 1 of `create` (lines 172-182): if `_vm_id` is falsy, derive
`charon-{uuid}-{name}`, `createvm`, set `_vm_id`, `write()`. -/
def createvmStep (env : Env) (uuid nm : String) (s : State) : Res :=
  if truthy s.vm_id then (Except.ok s, [])
  else
    let vmId := "charon-" ++ uuid ++ "-" ++ nm
    let e := Event.cmd (Cmd.createvm vmId)
    if env.createvm_res ≠ 0 then
      (Except.error (Err.backendCommand "unable to create VirtualBox VM"), [e])
    else
      let s' := { s with vm_id := some vmId }
      (Except.ok s', [e, Event.write s'])

/-- Step 2 of `create` (lines 184-207): if `_disk` is falsy, require the VM
directory under `$HOME/VirtualBox VMs/`, resolve `baseImage` (running
nix-build when it is `"drv"`), `clonehd` into `disk1.vdi`, set `_disk`,
`write()`. -/
def diskStep (env : Env) (defn : Defn) (s : State) : Res :=
  if truthy s.disk then (Except.ok s, [])
  else
    if ¬ env.vmDirExists then
      (Except.error (Err.backendQuery "cannot find directory of VirtualBox VM"), [])
    else
      let disk := env.homeDir ++ "/VirtualBox VMs/" ++ s.vm_id.getD "" ++ "/disk1.vdi"
      let resolved : Option String × List Event :=
        if defn.base_image = "drv" then (env.nixBuild, [Event.cmd Cmd.nixBuild])
        else (some defn.base_image, [])
      match resolved with
      | (none, tr) => (Except.error (Err.backendCommand "unable to build base image"), tr)
      | (some base, tr) =>
        let e := Event.cmd (Cmd.clonehd base disk)
        if env.clonehd_res ≠ 0 then
          (Except.error (Err.backendCommand "unable to copy VirtualBox disk"), tr ++ [e])
        else
          let s' := { s with disk := some disk }
          (Except.ok s', tr ++ [e, Event.write s'])

/-- Step 3 of `create` (lines 209-223): if `_disk_attached` is false, create
the SATA controller, attach the disk, set `_disk_attached = True`, `write()`. -/
def attachStep (env : Env) (s : State) : Res :=
  if s.disk_attached then (Except.ok s, [])
  else
    let e1 := Event.cmd (Cmd.storagectl (s.vm_id.getD ""))
    if env.storagectl_res ≠ 0 then
      (Except.error (Err.backendCommand "unable to create SATA controller"), [e1])
    else
      let e2 := Event.cmd (Cmd.storageattach (s.vm_id.getD "") (s.disk.getD ""))
      if env.storageattach_res ≠ 0 then
        (Except.error (Err.backendCommand "unable to attach disk"), [e1, e2])
      else
        let s' := { s with disk_attached := true }
        (Except.ok s', [e1, e2, Event.write s'])

/-- Step 4 of `create` (lines 225-231): only when `check` — query the VM
state; if running, set `_started = True` (without write), else set
`_started = False` and `write()`.  The query is index 0 of `env.vmState`. -/
def checkStep (env : Env) (check : Bool) (s : State) : Res :=
  if check then
    match env.vmState 0 with
    | none => (Except.error (Err.backendQuery "unable to get VM state"), [Event.queryState none])
    | some st =>
      if st = "running" then
        (Except.ok { s with started := true }, [Event.queryState (some st)])
      else
        let s' := { s with started := false }
        (Except.ok s', [Event.queryState (some st), Event.write s'])
  else (Except.ok s, [])

/-- Step 5 of `create` (lines 233-234): if `_client_private_key` is falsy,
generate a key pair via the collaborator and assign both fields.  No
`write()` occurs in this step. -/
def keyStep (env : Env) (s : State) : Res :=
  if truthy s.client_private_key then (Except.ok s, [])
  else
    (Except.ok { s with client_private_key := some env.keypair.1,
                        client_public_key := some env.keypair.2 },
     [Event.genKeyPair])

/-- Step 6 of `create` (lines 236-245): if `_started` is false, `modifyvm`
(memory, vram, NICs), then `_start(headless=defn.headless)`. -/
def startStep (env : Env) (defn : Defn) (s : State) : Res :=
  if s.started then (Except.ok s, [])
  else
    let e := Event.cmd (Cmd.modifyvm (s.vm_id.getD "") defn.memory_size)
    if env.modifyvm_res ≠ 0 then
      (Except.error (Err.backendCommand "unable to modify VirtualBox VM"), [e])
    else
      let p := _start env defn.headless s
      (p.1, e :: p.2)

/-- Step 7 of `create` (lines 247-248): if `_ipv4` is falsy or `check`,
`_wait_for_ip`. -/
def ipStep (env : Env) (check : Bool) (fuel : Nat) (s : State) : Res :=
  if ¬ truthy s.ipv4 ∨ check then _wait_for_ip env s fuel 0
  else (Except.ok s, [])

/-- `VirtualBoxState.create` (lines 169-248): the seven provisioning steps in
source order. -/
def create (env : Env) (uuid nm : String) (defn : Defn) (check : Bool)
    (fuel : Nat) (s : State) : Res :=
  andThen (createvmStep env uuid nm s) fun s =>
  andThen (diskStep env defn s) fun s =>
  andThen (attachStep env s) fun s =>
  andThen (checkStep env check s) fun s =>
  andThen (keyStep env s) fun s =>
  andThen (startStep env defn s) fun s =>
  ipStep env check fuel s

/-- The power-off convergence loop of `destroy` (line 257-258): query the VM
state (index `i`), stop when it is `poweroff` or `aborted`, else sleep and
retry. -/
def destroyWait (env : Env) (fuel i : Nat) : Except Err Unit × List Event :=
  match fuel with
  | 0 => (Except.error Err.fuel, [])
  | fuel + 1 =>
    match env.vmState i with
    | none => (Except.error (Err.backendQuery "unable to get VM state"), [Event.queryState none])
    | some st =>
      if st = "poweroff" ∨ st = "aborted" then (Except.ok (), [Event.queryState (some st)])
      else
        let p := destroyWait env fuel (i + 1)
        (p.1, Event.queryState (some st) :: Event.sleep :: p.2)

/-- `VirtualBoxState.destroy` (lines 251-263): if running, `controlvm
poweroff` (exit code ignored); loop until `poweroff`/`aborted`; one settle
`sleep(1)`; `unregistervm --delete`, fatal on failure.  The state record is
not modified. -/
def destroy (env : Env) (fuel : Nat) (s : State) : Res :=
  match env.vmState 0 with
  | none => (Except.error (Err.backendQuery "unable to get VM state"), [Event.queryState none])
  | some st =>
    let tr1 := if st = "running" then
        [Event.queryState (some st), Event.cmd (Cmd.controlvmPoweroff (s.vm_id.getD ""))]
      else [Event.queryState (some st)]
    match destroyWait env fuel 1 with
    | (Except.error e, tr2) => (Except.error e, tr1 ++ tr2)
    | (Except.ok _, tr2) =>
      let tr := tr1 ++ tr2 ++ [Event.sleep, Event.cmd (Cmd.unregistervm (s.vm_id.getD ""))]
      if env.unregister_res ≠ 0 then
        (Except.error (Err.backendCommand "unable to unregister VirtualBox VM"), tr)
      else (Except.ok s, tr)

/-- `VirtualBoxState.start` (lines 280-291): no-op when running; otherwise
remember the previous address, `_start(headless=False)`, `_wait_for_ip`, and
warn when the address changed. -/
def start (env : Env) (fuel : Nat) (s : State) : Res :=
  match env.vmState 0 with
  | none => (Except.error (Err.backendQuery "unable to get VM state"), [Event.queryState none])
  | some st =>
    if st = "running" then (Except.ok s, [Event.queryState (some st)])
    else
      let prev := s.ipv4
      match andThen (_start env false s) (fun s => _wait_for_ip env s fuel 0) with
      | (Except.error e, tr) => (Except.error e, Event.queryState (some st) :: tr)
      | (Except.ok s2, tr) =>
        let tr2 := if prev ≠ s2.ipv4 then tr ++ [Event.warn "IP address has changed"] else tr
        (Except.ok s2, Event.queryState (some st) :: tr2)

/-! ## Trace observations and concrete instances -/

/-- Is this event a `createvm` or `clonehd` backend command? -/
def isProvisionCmd : Event → Bool
  | Event.cmd (Cmd.createvm _) => true
  | Event.cmd (Cmd.clonehd _ _) => true
  | _ => false

/-- A trace issues neither `createResource` nor `cloneDisk`. -/
def noCC (tr : List Event) : Prop := ∀ e ∈ tr, isProvisionCmd e = false

/-- Is this event a `startvm` command with the headless flag set? -/
def isStartvmTrue : Event → Bool
  | Event.cmd (Cmd.startvm _ true) => true
  | _ => false

/-- The states committed by the `write()` calls of a trace, in order. -/
def writes (tr : List Event) : List State :=
  tr.filterMap fun e => match e with | Event.write s => some s | _ => none

/-- An environment in which every backend command succeeds, the VM reports
`running`, and the published address is `10.0.0.2`. -/
def envOk : Env :=
  { createvm_res := 0, clonehd_res := 0, storagectl_res := 0, storageattach_res := 0,
    modifyvm_res := 0, startvm_res := 0, guestSetIp_res := 0, guestSetKey_res := 0,
    unregister_res := 0, vmState := fun _ => some "running",
    guestGet := fun _ => some "Value: 10.0.0.2", homeDir := "/home/user",
    vmDirExists := true, nixBuild := some "/nix/store/img", keypair := ("PRIVKEY", "PUBKEY") }

/-- Like `envOk` but the VM reports `poweroff`. -/
def envDown : Env := { envOk with vmState := fun _ => some "poweroff" }

/-- Like `envOk` but successive state queries report `running`, `stopping`,
then `poweroff`. -/
def envSeq : Env :=
  { envOk with vmState := fun i =>
      if i = 0 then some "running" else if i = 1 then some "stopping" else some "poweroff" }

/-- A concrete definition: literal base image, 1024 MiB, not headless. -/
def defnOk : Defn := { base_image := "/img/base.vdi", memory_size := "1024", headless := false }

/-- A fully provisioned state. -/
def sWithOldIp : State :=
  { vm_id := some "vm", ipv4 := some "10.0.0.1", disk := some "/d/disk1.vdi",
    disk_attached := true, started := true, client_private_key := some "PRIVKEY",
    client_public_key := some "PUBKEY" }

/-- A fully provisioned state except no key pair. -/
def sKeyless : State :=
  { sWithOldIp with client_private_key := none, client_public_key := none }

/-- A fully provisioned state except the disk is not attached. -/
def sNoAttach : State := { sWithOldIp with disk_attached := false }

/-- A fully provisioned state except not started. -/
def sStopped : State := { sWithOldIp with started := false }

/-- A state with a representative mix of set and unset fields. -/
def sMixed : State :=
  { vm_id := some "vm01", ipv4 := none, disk := some "/d/disk1.vdi",
    disk_attached := true, started := false, client_private_key := some "PRIVKEY",
    client_public_key := none }

/-! ## Helper lemmas about traces -/

/-- Events of the first operation stay in the sequenced trace. -/
theorem mem_andThen_left {e : Event} {r : Res} (f : State → Res) (h : e ∈ r.2) :
    e ∈ (andThen r f).2 := by
  obtain ⟨r1, tr⟩ := r
  cases r1 <;> simp [andThen] at h ⊢ <;> simp [h]

/-- `noCC` is preserved by sequencing. -/
theorem noCC_andThen {r : Res} {f : State → Res} (h1 : noCC r.2)
    (h2 : ∀ s, noCC (f s).2) : noCC (andThen r f).2 := by
  obtain ⟨r1, tr⟩ := r
  cases r1 with
  | error e => exact h1
  | ok s =>
    intro e he
    simp [andThen] at he
    rcases he with he | he
    · exact h1 e he
    · exact h2 s e he

/-- `_start` never issues `createvm` or `clonehd`. -/
theorem noCC_start (env : Env) (hl : Bool) (s : State) : noCC (_start env hl s).2 := by
  intro e he
  unfold _start at he
  split at he <;> [skip; split at he] <;> [skip; skip; split at he] <;>
    simp at he <;> rcases he with rfl | rfl | rfl | rfl <;> rfl

/-- `_wait_for_ip` never issues `createvm` or `clonehd`. -/
theorem noCC_wfip (env : Env) : ∀ (fuel i : Nat) (s : State),
    noCC (_wait_for_ip env s fuel i).2 := by
  intro fuel
  induction fuel with
  | zero => intro i s e he; simp [_wait_for_ip] at he
  | succ n ih =>
    intro i s e he
    unfold _wait_for_ip at he
    rcases hg : env.guestGet i with _ | res <;> simp [hg] at he
    · rcases he with rfl; rfl
    · split at he
      · simp at he; rcases he with rfl | rfl | rfl <;> rfl
      · simp at he
        rcases he with rfl | rfl | he
        · rfl
        · rfl
        · exact ih (i + 1) s e he

/-- `attachStep` never issues `createvm` or `clonehd`. -/
theorem noCC_attach (env : Env) (s : State) : noCC (attachStep env s).2 := by
  intro e he
  unfold attachStep at he
  split at he
  · simp at he
  · split at he <;> [skip; split at he] <;> simp at he <;>
      first
        | (rcases he with rfl; rfl)
        | (rcases he with rfl | rfl; rfl; rfl)
        | (rcases he with rfl | rfl | rfl; rfl; rfl; rfl)

/-- `checkStep` never issues `createvm` or `clonehd`. -/
theorem noCC_check (env : Env) (check : Bool) (s : State) : noCC (checkStep env check s).2 := by
  intro e he
  unfold checkStep at he
  split at he
  · rcases hg : env.vmState 0 with _ | st <;> simp [hg] at he
    · rcases he with rfl; rfl
    · split at he <;> simp at he
      · rcases he with rfl; rfl
      · rcases he with rfl | rfl <;> rfl
  · simp at he

/-- `keyStep` never issues `createvm` or `clonehd`. -/
theorem noCC_key (env : Env) (s : State) : noCC (keyStep env s).2 := by
  intro e he
  unfold keyStep at he
  split at he <;> simp at he
  rcases he with rfl; rfl

/-- `startStep` never issues `createvm` or `clonehd`. -/
theorem noCC_startStep (env : Env) (defn : Defn) (s : State) :
    noCC (startStep env defn s).2 := by
  intro e he
  unfold startStep at he
  split at he
  · simp at he
  · split at he <;> simp at he
    · rcases he with rfl; rfl
    · rcases he with rfl | he
      · rfl
      · exact noCC_start env defn.headless s e he

/-- `ipStep` never issues `createvm` or `clonehd`. -/
theorem noCC_ip (env : Env) (check : Bool) (fuel : Nat) (s : State) :
    noCC (ipStep env check fuel s).2 := by
  intro e he
  unfold ipStep at he
  split at he
  · exact noCC_wfip env fuel 0 s e he
  · simp at he

/-- `_wait_for_ip` never issues a headless `startvm`. -/
theorem noTrue_wfip (env : Env) : ∀ (fuel i : Nat) (s : State),
    ∀ e ∈ (_wait_for_ip env s fuel i).2, isStartvmTrue e = false := by
  intro fuel
  induction fuel with
  | zero => intro i s e he; simp [_wait_for_ip] at he
  | succ n ih =>
    intro i s e he
    unfold _wait_for_ip at he
    rcases hg : env.guestGet i with _ | res <;> simp [hg] at he
    · rcases he with rfl; rfl
    · split at he
      · simp at he; rcases he with rfl | rfl | rfl <;> rfl
      · simp at he
        rcases he with rfl | rfl | he
        · rfl
        · rfl
        · exact ih (i + 1) s e he

/-! ## The claims -/

/-- C1: with every provisioning field already set (`vmId`, `disk`,
`diskAttached`, `started`, the private key, `privateIpv4`) and `check =
false`, `create` issues no backend command at all — in particular no
`createvm`, `clonehd`, `storagectl`/`storageattach`, `modifyvm`, `startvm`
or `guestproperty set` — performs no `write()`, and returns the state
unchanged: the trace is empty and the result is exactly the input state. -/
theorem create_idempotent (env : Env) (uuid nm : String) (defn : Defn) (fuel : Nat)
    (s : State) (h1 : truthy s.vm_id = true) (h2 : truthy s.ipv4 = true)
    (h3 : truthy s.disk = true) (h4 : s.disk_attached = true) (h5 : s.started = true)
    (h6 : truthy s.client_private_key = true) :
    create env uuid nm defn false fuel s = (Except.ok s, []) := by
  simp [create, andThen, createvmStep, diskStep, attachStep, checkStep, keyStep, startStep,
    ipStep, h1, h2, h3, h4, h5, h6]

/-- Witness for C1 on a concrete fully provisioned state. -/
theorem create_idempotent_witness :
    create envOk "u" "m" defnOk false 1 sWithOldIp = (Except.ok sWithOldIp, []) :=
  create_idempotent envOk "u" "m" defnOk 1 sWithOldIp (by decide) (by decide) (by decide)
    (by decide) (by decide) (by decide)

/-- C2: with `vmId` and `disk` set but `diskAttached = false` and the
controller-creation command succeeding, `create` (with `check = false`)
issues both the `storagectl` and the `storageattach` command, and its whole
trace contains no `createvm` and no `clonehd`. -/
theorem create_resume_attach (env : Env) (uuid nm : String) (defn : Defn) (fuel : Nat)
    (s : State) (h1 : truthy s.vm_id = true) (h3 : truthy s.disk = true)
    (h4 : s.disk_attached = false) (hc : env.storagectl_res = 0) :
    Event.cmd (Cmd.storagectl (s.vm_id.getD "")) ∈ (create env uuid nm defn false fuel s).2
    ∧ Event.cmd (Cmd.storageattach (s.vm_id.getD "") (s.disk.getD "")) ∈
        (create env uuid nm defn false fuel s).2
    ∧ noCC (create env uuid nm defn false fuel s).2 := by
  have hred : create env uuid nm defn false fuel s =
      andThen (attachStep env s) (fun s =>
        andThen (checkStep env false s) fun s =>
        andThen (keyStep env s) fun s =>
        andThen (startStep env defn s) fun s =>
        ipStep env false fuel s) := by
    simp [create, andThen, createvmStep, diskStep, h1, h3]
  rw [hred]
  have hmem1 : Event.cmd (Cmd.storagectl (s.vm_id.getD "")) ∈ (attachStep env s).2 := by
    unfold attachStep
    simp [h4, hc]
    split <;> simp
  have hmem2 : Event.cmd (Cmd.storageattach (s.vm_id.getD "") (s.disk.getD "")) ∈
      (attachStep env s).2 := by
    unfold attachStep
    simp [h4, hc]
    split <;> simp
  refine ⟨mem_andThen_left _ hmem1, mem_andThen_left _ hmem2, ?_⟩
  refine noCC_andThen (noCC_attach env s) fun s => ?_
  refine noCC_andThen (noCC_check env false s) fun s => ?_
  refine noCC_andThen (noCC_key env s) fun s => ?_
  refine noCC_andThen (noCC_startStep env defn s) fun s => ?_
  exact noCC_ip env false fuel s

/-- Witness for C2 on a concrete state with the disk not yet attached. -/
theorem create_resume_attach_witness :
    Event.cmd (Cmd.storagectl "vm") ∈ (create envOk "u" "m" defnOk false 1 sNoAttach).2
    ∧ Event.cmd (Cmd.storageattach "vm" "/d/disk1.vdi") ∈
        (create envOk "u" "m" defnOk false 1 sNoAttach).2
    ∧ noCC (create envOk "u" "m" defnOk false 1 sNoAttach).2 :=
  create_resume_attach envOk "u" "m" defnOk 1 sNoAttach (by decide) (by decide) (by decide)
    (by decide)

/-- C3: when the one-shot mutating backend call of a provisioning step fails
(nonzero exit code), `create` aborts with a `BackendCommandError`-style error
and the trace after the failing command contains no further `write()`: the
persisted state is exactly the one left by the last committed `write()`.
One conjunct per failing command — `createvm` (step 1), `clonehd` (step 2,
run from the fresh state so the single committed write of step 1 is
visible in the trace), `storagectl` and `storageattach` (step 3),
`modifyvm`, the two `guestproperty set`s and `startvm` (step 6, with the
earlier steps already satisfied). -/
theorem create_abort_on_failure :
    (∀ (env : Env) (u n : String) (defn : Defn) (fuel : Nat) (s : State),
      truthy s.vm_id = false → env.createvm_res ≠ 0 →
      create env u n defn false fuel s =
        (Except.error (Err.backendCommand "unable to create VirtualBox VM"),
         [Event.cmd (Cmd.createvm ("charon-" ++ u ++ "-" ++ n))]))
    ∧ (∀ (env : Env) (u n : String) (defn : Defn) (fuel : Nat),
      env.createvm_res = 0 → env.vmDirExists = true → defn.base_image ≠ "drv" →
      env.clonehd_res ≠ 0 →
      create env u n defn false fuel initState =
        (Except.error (Err.backendCommand "unable to copy VirtualBox disk"),
         [Event.cmd (Cmd.createvm ("charon-" ++ u ++ "-" ++ n)),
          Event.write { initState with vm_id := some ("charon-" ++ u ++ "-" ++ n) },
          Event.cmd (Cmd.clonehd defn.base_image
            (env.homeDir ++ "/VirtualBox VMs/" ++ ("charon-" ++ u ++ "-" ++ n) ++ "/disk1.vdi"))]))
    ∧ (∀ (env : Env) (u n : String) (defn : Defn) (fuel : Nat) (s : State),
      truthy s.vm_id = true → truthy s.disk = true → s.disk_attached = false →
      env.storagectl_res ≠ 0 →
      create env u n defn false fuel s =
        (Except.error (Err.backendCommand "unable to create SATA controller"),
         [Event.cmd (Cmd.storagectl (s.vm_id.getD ""))]))
    ∧ (∀ (env : Env) (u n : String) (defn : Defn) (fuel : Nat) (s : State),
      truthy s.vm_id = true → truthy s.disk = true → s.disk_attached = false →
      env.storagectl_res = 0 → env.storageattach_res ≠ 0 →
      create env u n defn false fuel s =
        (Except.error (Err.backendCommand "unable to attach disk"),
         [Event.cmd (Cmd.storagectl (s.vm_id.getD "")),
          Event.cmd (Cmd.storageattach (s.vm_id.getD "") (s.disk.getD ""))]))
    ∧ (∀ (env : Env) (u n : String) (defn : Defn) (fuel : Nat) (s : State),
      truthy s.vm_id = true → truthy s.disk = true → s.disk_attached = true →
      s.started = false → truthy s.client_private_key = true →
      env.modifyvm_res ≠ 0 →
      create env u n defn false fuel s =
        (Except.error (Err.backendCommand "unable to modify VirtualBox VM"),
         [Event.cmd (Cmd.modifyvm (s.vm_id.getD "") defn.memory_size)]))
    ∧ (∀ (env : Env) (u n : String) (defn : Defn) (fuel : Nat) (s : State),
      truthy s.vm_id = true → truthy s.disk = true → s.disk_attached = true →
      s.started = false → truthy s.client_private_key = true →
      env.modifyvm_res = 0 → env.guestSetIp_res ≠ 0 →
      create env u n defn false fuel s =
        (Except.error (Err.backendCommand "unable to clear IP address"),
         [Event.cmd (Cmd.modifyvm (s.vm_id.getD "") defn.memory_size),
          Event.cmd (Cmd.guestpropSet (s.vm_id.getD "") ipKey "")]))
    ∧ (∀ (env : Env) (u n : String) (defn : Defn) (fuel : Nat) (s : State),
      truthy s.vm_id = true → truthy s.disk = true → s.disk_attached = true →
      s.started = false → truthy s.client_private_key = true →
      env.modifyvm_res = 0 → env.guestSetIp_res = 0 → env.guestSetKey_res ≠ 0 →
      create env u n defn false fuel s =
        (Except.error (Err.backendCommand "unable to set client key"),
         [Event.cmd (Cmd.modifyvm (s.vm_id.getD "") defn.memory_size),
          Event.cmd (Cmd.guestpropSet (s.vm_id.getD "") ipKey ""),
          Event.cmd (Cmd.guestpropSet (s.vm_id.getD "") pubKeyKey
            (s.client_public_key.getD ""))]))
    ∧ (∀ (env : Env) (u n : String) (defn : Defn) (fuel : Nat) (s : State),
      truthy s.vm_id = true → truthy s.disk = true → s.disk_attached = true →
      s.started = false → truthy s.client_private_key = true →
      env.modifyvm_res = 0 → env.guestSetIp_res = 0 → env.guestSetKey_res = 0 →
      env.startvm_res ≠ 0 →
      create env u n defn false fuel s =
        (Except.error (Err.backendCommand "unable to start VM"),
         [Event.cmd (Cmd.modifyvm (s.vm_id.getD "") defn.memory_size),
          Event.cmd (Cmd.guestpropSet (s.vm_id.getD "") ipKey ""),
          Event.cmd (Cmd.guestpropSet (s.vm_id.getD "") pubKeyKey
            (s.client_public_key.getD "")),
          Event.cmd (Cmd.startvm (s.vm_id.getD "") defn.headless)])) := by
  refine ⟨?_, ?_, ?_, ?_, ?_, ?_, ?_, ?_⟩ <;>
    intros env u n defn fuel
  · intro s h1 h2
    simp [create, andThen, createvmStep, h1, h2]
  · intro h1 h2 h3 h4
    simp [create, andThen, createvmStep, diskStep, initState, truthy, h1, h2, h3, h4]
  · intro s h1 h2 h3 h4
    simp [create, andThen, createvmStep, diskStep, attachStep, h1, h2, h3, h4]
  · intro s h1 h2 h3 h4 h5
    simp [create, andThen, createvmStep, diskStep, attachStep, h1, h2, h3, h4, h5]
  · intro s h1 h2 h3 h4 h5 h6
    simp [create, andThen, createvmStep, diskStep, attachStep, checkStep, keyStep,
      startStep, h1, h2, h3, h4, h5, h6]
  · intro s h1 h2 h3 h4 h5 h6 h7
    simp [create, andThen, createvmStep, diskStep, attachStep, checkStep, keyStep,
      startStep, _start, h1, h2, h3, h4, h5, h6, h7]
  · intro s h1 h2 h3 h4 h5 h6 h7 h8
    simp [create, andThen, createvmStep, diskStep, attachStep, checkStep, keyStep,
      startStep, _start, h1, h2, h3, h4, h5, h6, h7, h8]
  · intro s h1 h2 h3 h4 h5 h6 h7 h8 h9
    simp [create, andThen, createvmStep, diskStep, attachStep, checkStep, keyStep,
      startStep, _start, h1, h2, h3, h4, h5, h6, h7, h8, h9]

/-- Witness for C3: a failing `createvm` on the fresh state aborts with an
empty set of writes. -/
theorem create_abort_on_failure_witness :
    create { envOk with createvm_res := 1 } "u" "m" defnOk false 1 initState =
      (Except.error (Err.backendCommand "unable to create VirtualBox VM"),
       [Event.cmd (Cmd.createvm "charon-u-m")]) :=
  create_abort_on_failure.1 { envOk with createvm_res := 1 } "u" "m" defnOk 1 initState
    (by decide) (by decide)

/-- C4: `deserialise (serialise s)` recovers every field of `s` exactly when
no optional field holds the (falsy) empty string; unset optional fields are
omitted from the serialised mapping (their keys are absent, not null); and a
mapping carrying only an empty `virtualbox` group deserialises to the fully
unset state with `diskAttached = false` and `started = false`. -/
theorem serialise_roundtrip (s : State)
    (h1 : s.vm_id ≠ some "") (h2 : s.ipv4 ≠ some "") (h3 : s.disk ≠ some "")
    (h4 : s.client_private_key ≠ some "") (h5 : s.client_public_key ≠ some "") :
    deserialise (serialise s) = some s
    ∧ (s.vm_id = none → lookupV (serialise s) "vmId" = none)
    ∧ (s.ipv4 = none → lookupV (serialise s) "privateIpv4" = none)
    ∧ (s.disk = none → vbLookup (serialise s) "disk" = none)
    ∧ (s.client_private_key = none → vbLookup (serialise s) "clientPrivateKey" = none)
    ∧ (s.client_public_key = none → vbLookup (serialise s) "clientPublicKey" = none)
    ∧ deserialise [("virtualbox", Value.obj [])] = some initState := by
  obtain ⟨vm, ip, dk, da, st, pk, pub⟩ := s
  rcases vm with _ | v <;> rcases ip with _ | i <;> rcases dk with _ | d <;>
    rcases pk with _ | p <;> rcases pub with _ | q <;>
    simp_all [serialise, deserialise, truthy, lookupV, getStr, getBool, vbLookup, initState]

/-- Witness for C4 on a state with a representative mix of set and unset
fields. -/
theorem serialise_roundtrip_witness :
    deserialise (serialise sMixed) = some sMixed :=
  (serialise_roundtrip _ (by decide) (by decide) (by decide) (by decide) (by decide)).1

/-- C5: with `started = true` persisted but the state query reporting
something other than `running`, `create` with `check = true` first persists
`started = false` (the reset write), then re-runs the whole start step
(`modifyvm`, the two `guestproperty set`s, `startvm`, committing
`started = true`) and re-runs address discovery (`guestproperty get`,
`known_hosts` invalidation, final write) even though `privateIpv4` was
already set. -/
theorem create_check_revalidates (env : Env) (u n : String) (defn : Defn) (f : Nat)
    (s : State) (st res : String)
    (h1 : truthy s.vm_id = true) (h2 : truthy s.disk = true) (h3 : s.disk_attached = true)
    (h4 : s.started = true) (h5 : truthy s.ipv4 = true)
    (h6 : truthy s.client_private_key = true)
    (hq : env.vmState 0 = some st) (hnr : st ≠ "running")
    (hm : env.modifyvm_res = 0) (hgi : env.guestSetIp_res = 0) (hgk : env.guestSetKey_res = 0)
    (hsv : env.startvm_res = 0)
    (hget : env.guestGet 0 = some res) (hres : strTake res 7 = "Value: ") :
    create env u n defn true (f + 1) s =
      (Except.ok { s with started := true, ipv4 := some (strDrop res 7) },
       [Event.queryState (some st),
        Event.write { s with started := false },
        Event.cmd (Cmd.modifyvm (s.vm_id.getD "") defn.memory_size),
        Event.cmd (Cmd.guestpropSet (s.vm_id.getD "") ipKey ""),
        Event.cmd (Cmd.guestpropSet (s.vm_id.getD "") pubKeyKey (s.client_public_key.getD "")),
        Event.cmd (Cmd.startvm (s.vm_id.getD "") defn.headless),
        Event.write { s with started := true },
        Event.cmd (Cmd.guestpropGet (s.vm_id.getD "") ipKey),
        Event.knownHostsRemove (strDrop res 7),
        Event.write { s with started := true, ipv4 := some (strDrop res 7) }]) := by
  simp [create, andThen, createvmStep, diskStep, attachStep, checkStep, keyStep, startStep,
    _start, ipStep, _wait_for_ip, h1, h2, h3, h4, h5, h6, hq, hnr, hm, hgi, hgk, hsv,
    hget, hres]

/-- Witness for C5 on the concrete fully provisioned state against a VM that
reports `poweroff`. -/
theorem create_check_revalidates_witness :
    create envDown "u" "m" defnOk true 1 sWithOldIp =
      (Except.ok { sWithOldIp with started := true, ipv4 := some "10.0.0.2" },
       [Event.queryState (some "poweroff"),
        Event.write { sWithOldIp with started := false },
        Event.cmd (Cmd.modifyvm "vm" "1024"),
        Event.cmd (Cmd.guestpropSet "vm" ipKey ""),
        Event.cmd (Cmd.guestpropSet "vm" pubKeyKey "PUBKEY"),
        Event.cmd (Cmd.startvm "vm" false),
        Event.write { sWithOldIp with started := true },
        Event.cmd (Cmd.guestpropGet "vm" ipKey),
        Event.knownHostsRemove "10.0.0.2",
        Event.write { sWithOldIp with started := true, ipv4 := some "10.0.0.2" }]) :=
  create_check_revalidates envDown "u" "m" defnOk 0 sWithOldIp "poweroff" "Value: 10.0.0.2"
    (by decide) (by decide) (by decide) (by decide) (by decide) (by decide)
    rfl (by decide) rfl rfl rfl rfl rfl (by decide)

/-- C6 counterexample: on a provisioned, started state with no key pair and
`check = false`, `create` generates the pair (the state comes back with both
keys set and the trace records the collaborator call) yet the trace contains
no `write()` at all — the keys are not persisted before the next step runs,
nor by the end of the invocation. -/
theorem keygen_no_write_cex :
    create envOk "u" "m" defnOk false 1 sKeyless =
      (Except.ok { sKeyless with client_private_key := some "PRIVKEY",
                                 client_public_key := some "PUBKEY" },
       [Event.genKeyPair])
    ∧ writes (create envOk "u" "m" defnOk false 1 sKeyless).2 = [] := by
  constructor <;> rfl

/-- C6 amended: when no private key is present, `create` asks the credential
collaborator for a pair and sets both halves in the in-memory state, but does
not itself persist them: with all later steps already satisfied the whole
invocation performs no `write()`, so the keys are committed only by whatever
later write-through happens to run. -/
theorem keygen_not_persisted (env : Env) (u n : String) (defn : Defn) (fuel : Nat)
    (s : State) (h1 : truthy s.vm_id = true) (h2 : truthy s.disk = true)
    (h3 : s.disk_attached = true) (h4 : s.started = true) (h5 : truthy s.ipv4 = true)
    (h6 : truthy s.client_private_key = false) :
    create env u n defn false fuel s =
      (Except.ok { s with client_private_key := some env.keypair.1,
                          client_public_key := some env.keypair.2 },
       [Event.genKeyPair]) := by
  simp [create, andThen, createvmStep, diskStep, attachStep, checkStep, keyStep, startStep,
    ipStep, h1, h2, h3, h4, h5, h6]

/-- Witness for the amended C6 on the concrete keyless state. -/
theorem keygen_not_persisted_witness :
    create envOk "u" "m" defnOk false 1 sKeyless =
      (Except.ok { sKeyless with client_private_key := some "PRIVKEY",
                                 client_public_key := some "PUBKEY" },
       [Event.genKeyPair]) :=
  keygen_not_persisted envOk "u" "m" defnOk 1 sKeyless (by decide) (by decide) (by decide)
    (by decide) (by decide) (by decide)

/-- C7 counterexample: with `10.0.0.1` persisted as the previous address and
the backend publishing `10.0.0.2`, `_wait_for_ip` invalidates the trust
record of the newly discovered address `10.0.0.2` and never touches the one
for the previous address `10.0.0.1` — the opposite of what the claim states. -/
theorem wfip_old_address_cex :
    Event.knownHostsRemove "10.0.0.2" ∈ (_wait_for_ip envOk sWithOldIp 1 0).2
    ∧ Event.knownHostsRemove "10.0.0.1" ∉ (_wait_for_ip envOk sWithOldIp 1 0).2
    ∧ (_wait_for_ip envOk sWithOldIp 1 0).1 =
        Except.ok { sWithOldIp with ipv4 := some "10.0.0.2" } :=
  ⟨by decide, by decide, rfl⟩

/-- C7 amended: whenever address discovery succeeds, the newly discovered
address is stored and persisted, and the cached trust record that is
invalidated is the one for that newly discovered address (the field is
updated before `known_hosts.remove(self._ipv4)` runs), regardless of the
previously persisted address. -/
theorem wfip_invalidates_new_address (env : Env) (s : State) (f i : Nat) (res : String)
    (hget : env.guestGet i = some res) (hres : strTake res 7 = "Value: ") :
    _wait_for_ip env s (f + 1) i =
      (Except.ok { s with ipv4 := some (strDrop res 7) },
       [Event.cmd (Cmd.guestpropGet (s.vm_id.getD "") ipKey),
        Event.knownHostsRemove (strDrop res 7),
        Event.write { s with ipv4 := some (strDrop res 7) }]) := by
  simp [_wait_for_ip, hget, hres]

/-- Witness for the amended C7 on the concrete state holding the old
address. -/
theorem wfip_invalidates_new_address_witness :
    _wait_for_ip envOk sWithOldIp 1 0 =
      (Except.ok { sWithOldIp with ipv4 := some "10.0.0.2" },
       [Event.cmd (Cmd.guestpropGet "vm" ipKey),
        Event.knownHostsRemove "10.0.0.2",
        Event.write { sWithOldIp with ipv4 := some "10.0.0.2" }]) :=
  wfip_invalidates_new_address envOk sWithOldIp 0 0 "Value: 10.0.0.2" rfl (by decide)

/-- C8 counterexample: in a concrete run of the start step of `create`, the
`modifyvm` (configureResource) command comes strictly before the command
clearing the stale address fact, contradicting the claimed order
clear-publish-configure-start. -/
theorem start_order_cex :
    List.indexOf (Event.cmd (Cmd.modifyvm "vm" "1024"))
        (create envOk "u" "m" defnOk false 1 sStopped).2 <
      List.indexOf (Event.cmd (Cmd.guestpropSet "vm" ipKey ""))
        (create envOk "u" "m" defnOk false 1 sStopped).2 := by
  decide

/-- C8 amended: when the start step of `create` runs (`started = false`) and
its commands succeed, the backend calls occur in the order `modifyvm`
(configureResource), then clear of the stale address fact, then publication
of the public key, then `startvm` with the Definition's headless flag, and
only then is `started = true` persisted. -/
theorem create_start_order (env : Env) (u n : String) (defn : Defn) (fuel : Nat)
    (s : State) (h1 : truthy s.vm_id = true) (h2 : truthy s.disk = true)
    (h3 : s.disk_attached = true) (h4 : s.started = false) (h5 : truthy s.ipv4 = true)
    (h6 : truthy s.client_private_key = true)
    (hm : env.modifyvm_res = 0) (hgi : env.guestSetIp_res = 0)
    (hgk : env.guestSetKey_res = 0) (hsv : env.startvm_res = 0) :
    create env u n defn false fuel s =
      (Except.ok { s with started := true },
       [Event.cmd (Cmd.modifyvm (s.vm_id.getD "") defn.memory_size),
        Event.cmd (Cmd.guestpropSet (s.vm_id.getD "") ipKey ""),
        Event.cmd (Cmd.guestpropSet (s.vm_id.getD "") pubKeyKey (s.client_public_key.getD "")),
        Event.cmd (Cmd.startvm (s.vm_id.getD "") defn.headless),
        Event.write { s with started := true }]) := by
  simp [create, andThen, createvmStep, diskStep, attachStep, checkStep, keyStep, startStep,
    _start, ipStep, h1, h2, h3, h4, h5, h6, hm, hgi, hgk, hsv]

/-- Witness for the amended C8 on the concrete stopped state. -/
theorem create_start_order_witness :
    create envOk "u" "m" defnOk false 1 sStopped =
      (Except.ok { sStopped with started := true },
       [Event.cmd (Cmd.modifyvm "vm" "1024"),
        Event.cmd (Cmd.guestpropSet "vm" ipKey ""),
        Event.cmd (Cmd.guestpropSet "vm" pubKeyKey "PUBKEY"),
        Event.cmd (Cmd.startvm "vm" false),
        Event.write { sStopped with started := true }]) :=
  create_start_order envOk "u" "m" defnOk 1 sStopped (by decide) (by decide) (by decide)
    (by decide) (by decide) (by decide) rfl rfl rfl rfl

/-- C9: when successive state queries report `running`, `stopping`, then
`poweroff`, the trace of `destroy` is exactly: the first query, one single
`controlvm poweroff` issued before any convergence poll, the `stopping` poll
followed by a retry sleep, the poll that observes `poweroff`, the settle
sleep, and only then the `unregistervm --delete` that removes the resource. -/
theorem destroy_convergence (env : Env) (f : Nat) (s : State)
    (h0 : env.vmState 0 = some "running") (h1 : env.vmState 1 = some "stopping")
    (h2 : env.vmState 2 = some "poweroff") :
    (destroy env (f + 2) s).2 =
      [Event.queryState (some "running"),
       Event.cmd (Cmd.controlvmPoweroff (s.vm_id.getD "")),
       Event.queryState (some "stopping"), Event.sleep,
       Event.queryState (some "poweroff"),
       Event.sleep,
       Event.cmd (Cmd.unregistervm (s.vm_id.getD ""))] := by
  simp [destroy, destroyWait, h0, h1, h2]
  split <;> rfl

/-- Witness for C9 against the environment reporting `running`, `stopping`,
`poweroff` in sequence. -/
theorem destroy_convergence_witness :
    (destroy envSeq 2 sWithOldIp).2 =
      [Event.queryState (some "running"),
       Event.cmd (Cmd.controlvmPoweroff "vm"),
       Event.queryState (some "stopping"), Event.sleep,
       Event.queryState (some "poweroff"),
       Event.sleep,
       Event.cmd (Cmd.unregistervm "vm")] :=
  destroy_convergence envSeq 0 sWithOldIp rfl rfl rfl

/-- C10: whenever the Lifecycle Controller's `start` proceeds past the
running check (and the two guest-property writes succeed so the start
command is reached), the `startvm` command it issues carries
`headless = false`, and no event of the whole trace is a `startvm` with
`headless = true` — `start` takes no Definition and hard-codes
`headless=False`. -/
theorem start_forces_headful (env : Env) (f : Nat) (s : State) (st : String)
    (hq : env.vmState 0 = some st) (hnr : st ≠ "running")
    (hgi : env.guestSetIp_res = 0) (hgk : env.guestSetKey_res = 0) :
    Event.cmd (Cmd.startvm (s.vm_id.getD "") false) ∈ (start env f s).2
    ∧ ∀ e ∈ (start env f s).2, isStartvmTrue e = false := by
  by_cases hsv : env.startvm_res = 0
  · have hs1 : _start env false s =
        (Except.ok { s with started := true },
         [Event.cmd (Cmd.guestpropSet (s.vm_id.getD "") ipKey ""),
          Event.cmd (Cmd.guestpropSet (s.vm_id.getD "") pubKeyKey (s.client_public_key.getD "")),
          Event.cmd (Cmd.startvm (s.vm_id.getD "") false),
          Event.write { s with started := true }]) := by
      simp [_start, hgi, hgk, hsv]
    rcases hw : _wait_for_ip env { s with started := true } f 0 with ⟨rw', trw⟩
    have hall : ∀ e ∈ trw, isStartvmTrue e = false := by
      intro e he
      exact noTrue_wfip env f 0 { s with started := true } e (by rw [hw]; exact he)
    cases rw' with
    | error er =>
      simp [start, hq, hnr, andThen, hs1, hw, isStartvmTrue]
      intro e he
      exact hall e he
    | ok s2 =>
      simp only [start, hq, hnr, andThen, hs1, hw]
      by_cases hip : s.ipv4 = s2.ipv4
      · simp [hip, isStartvmTrue]
        intro e he
        exact hall e he
      · simp [hip, isStartvmTrue]
        intro e he
        rcases he with he | rfl
        · exact hall e he
        · rfl
  · have hs1 : _start env false s =
        (Except.error (Err.backendCommand "unable to start VM"),
         [Event.cmd (Cmd.guestpropSet (s.vm_id.getD "") ipKey ""),
          Event.cmd (Cmd.guestpropSet (s.vm_id.getD "") pubKeyKey (s.client_public_key.getD "")),
          Event.cmd (Cmd.startvm (s.vm_id.getD "") false)]) := by
      simp [_start, hgi, hgk, hsv]
    simp [start, hq, hnr, andThen, hs1, isStartvmTrue]

/-- Witness for C10 against a VM reporting `poweroff`. -/
theorem start_forces_headful_witness :
    Event.cmd (Cmd.startvm "vm" false) ∈ (start envDown 1 sWithOldIp).2
    ∧ ∀ e ∈ (start envDown 1 sWithOldIp).2, isStartvmTrue e = false :=
  start_forces_headful envDown 1 sWithOldIp "poweroff" rfl (by decide) rfl rfl

end VBox
